import Mathlib

/-!
Shallow embedding of `pkg/schedule/schedulers/evict_slow_trend.go`.

Modelling conventions:
- `uint64` store ids and timestamps are `Nat`; wall-clock instants are passed
  explicitly as a `now : Nat` parameter (seconds), replacing `time.Now()`.
- Go `float64` trend values are modelled as `ℚ`; the literals `1e-9` and `1.1`
  of the source are the exact rationals `1 / 1000000000` and `11 / 10`.
- The external cluster snapshot (`GetStores`, `GetStore`), the persistence
  backend and the leader-eviction operator batch are collaborators outside the
  source file; they are modelled at their interface boundary.
- A Go nil-pointer dereference (a process panic) is modelled by the `GoPanic`
  error of an `Except` result.
-/

namespace EvictSlowTrend

/-- Source constant `alterEpsilon = 1e-9`. -/
def alterEpsilon : ℚ := 1 / 1000000000

/-- Source constant `minReCheckDurationGap = 120` (seconds). -/
def minReCheckDurationGap : Nat := 120

/-- Source constant `defaultRecoveryDurationGap = 600` (seconds). -/
def defaultRecoveryDurationGap : Nat := 600

/-- Trend signal of a store (`pdpb.SlowTrend`): cause/result magnitudes and rates. -/
structure SlowTrend where
  causeValue : ℚ
  causeRate : ℚ
  resultValue : ℚ
  resultRate : ℚ
deriving DecidableEq

/-- Lifecycle status of a node; only `preparing` and `serving` nodes take part in
the detection and confirmation arithmetic. -/
inductive NodeState where
  | preparing
  | serving
  | removed
  | other
deriving DecidableEq

/-- Read-only node observation from the cluster snapshot (`core.StoreInfo`). -/
structure StoreInfo where
  id : Nat
  state : NodeState
  slowTrend : Option SlowTrend
  lastHeartbeatTS : Nat
deriving DecidableEq

def StoreInfo.isRemoved (s : StoreInfo) : Bool := decide (s.state = NodeState.removed)

def StoreInfo.isPreparing (s : StoreInfo) : Bool := decide (s.state = NodeState.preparing)

def StoreInfo.isServing (s : StoreInfo) : Bool := decide (s.state = NodeState.serving)

/-- Cluster snapshot: the store list (`GetStores`, including removed stores), the
`IsRaftKV2` engine flag and the configured affected-store ratio threshold. -/
structure Cluster where
  stores : List StoreInfo
  isRaftKV2 : Bool
  evictingAffectedStoreRatioThreshold : ℚ
deriving DecidableEq

/-- Modelled from the spec: `GetNode(id) -> optional NodeObservation`; the snapshot
accessor returns the store with the given id when present, else none. -/
def getStore (cluster : Cluster) (id : Nat) : Option StoreInfo :=
  cluster.stores.find? (fun s => decide (s.id = id))

/-- Source `slowCandidate`: a provisionally suspected store and its capture instant. -/
structure SlowCandidate where
  storeID : Nat
  captureTS : Nat
deriving DecidableEq

/-- The Go zero value `slowCandidate{}`, meaning "empty / no candidate". -/
def emptyCandidate : SlowCandidate := ⟨0, 0⟩

/-- Source `evictSlowTrendSchedulerConfig`: the two transient candidate slots plus the
persisted evicted-store list (`EvictedStores`, length 0 or 1). -/
structure SchedulerConfig where
  evictCandidate : SlowCandidate
  lastEvictCandidate : SlowCandidate
  evictedStores : List Nat
deriving DecidableEq

/-- Source `DurationSinceAsSecs`: elapsed seconds since `startTS` at instant `now`. -/
def durationSinceAsSecs (now startTS : Nat) : Nat := now - startTS

/-- Source `evictedStore()`: 0 when no store is evicted, else the head of the list. -/
def SchedulerConfig.evictedStore (conf : SchedulerConfig) : Nat :=
  match conf.evictedStores with
  | [] => 0
  | x :: _ => x

/-- Source `candidate()`. -/
def SchedulerConfig.candidate (conf : SchedulerConfig) : Nat := conf.evictCandidate.storeID

/-- Source `captureTS()`. -/
def SchedulerConfig.captureTS (conf : SchedulerConfig) : Nat := conf.evictCandidate.captureTS

/-- Source `candidateCapturedSecs()`: elapsed seconds since the current candidate slot's
capture timestamp (the timestamp is the zero value when the slot is empty). -/
def SchedulerConfig.candidateCapturedSecs (conf : SchedulerConfig) (now : Nat) : Nat :=
  durationSinceAsSecs now conf.evictCandidate.captureTS

/-- Source `captureCandidate(id)`: records the current candidate at instant `now`, and
seeds the last-candidate slot with it when that slot is still empty. -/
def captureCandidate (conf : SchedulerConfig) (id : Nat) (now : Nat) : SchedulerConfig :=
  let cand : SlowCandidate := ⟨id, now⟩
  let conf1 : SchedulerConfig := { conf with evictCandidate := cand }
  if conf1.lastEvictCandidate = emptyCandidate then
    { conf1 with lastEvictCandidate := cand }
  else conf1

/-- Source `popCandidate()`: returns the current candidate's id, copies the current
slot into the last-candidate slot, and clears the current slot. -/
def popCandidate (conf : SchedulerConfig) : Nat × SchedulerConfig :=
  (conf.evictCandidate.storeID,
    { conf with
      lastEvictCandidate := conf.evictCandidate
      evictCandidate := emptyCandidate })

/-- The error taxonomy of a persistence attempt. -/
inductive PersistError where
  | persistenceError
deriving DecidableEq

/-- Source `Persist()`: the encode step never fails; the external storage write
succeeds or fails according to `storageOk`. -/
def persistOutcome (storageOk : Bool) : Option PersistError :=
  if storageOk then none else some PersistError.persistenceError

/-- Source `setStoreAndPersist(id)`: sets the evicted-store list to `[id]` and then
attempts the persistence write; the in-memory mutation stands even when the write fails. -/
def setStoreAndPersist (conf : SchedulerConfig) (id : Nat) (storageOk : Bool) :
    SchedulerConfig × Option PersistError :=
  ({ conf with evictedStores := [id] }, persistOutcome storageOk)

/-- Source `clearAndPersist()`: returns unchanged when nothing is evicted, else clears
the list, attempts the write, and reports the previously evicted id. -/
def clearAndPersist (conf : SchedulerConfig) (storageOk : Bool) :
    SchedulerConfig × Nat × Option PersistError :=
  if conf.evictedStore = 0 then (conf, 0, none)
  else ({ conf with evictedStores := [] }, conf.evictedStore, persistOutcome storageOk)

/-- Eligibility filter applied by every loop of the source: skip removed stores and
stores that are neither preparing nor serving. -/
def eligiblePred (s : StoreInfo) : Bool :=
  !s.isRemoved && (s.isPreparing || s.isServing)

/-- Candidate admission test of `chooseEvictCandidate`: the primary disk-io-jitter
signature, or (raft-kv2 only) the cause-side-only signature for a recent repeat of
the last candidate. -/
def candidatePred (cluster : Cluster) (lastEvictCandidate : SlowCandidate) (now : Nat)
    (s : StoreInfo) : Bool :=
  eligiblePred s &&
    (match s.slowTrend with
     | none => false
     | some st =>
       if decide (st.causeRate > alterEpsilon) && decide (st.resultRate < -alterEpsilon) then
         true
       else if cluster.isRaftKV2 && decide (st.causeRate > alterEpsilon) then
         decide (lastEvictCandidate ≠ emptyCandidate) &&
           decide (lastEvictCandidate.storeID = s.id) &&
           decide (durationSinceAsSecs now lastEvictCandidate.captureTS ≤ minReCheckDurationGap)
       else false)

/-- Candidate list collected by the loop of `chooseEvictCandidate`, in store order. -/
def collectCandidates (cluster : Cluster) (lastEvictCandidate : SlowCandidate) (now : Nat) :
    List StoreInfo :=
  cluster.stores.filter (candidatePred cluster lastEvictCandidate now)

/-- Affected-store test of `chooseEvictCandidate`: an eligible store with a trend signal
whose result rate is degrading. -/
def affectedPred (s : StoreInfo) : Bool :=
  eligiblePred s &&
    (match s.slowTrend with
     | none => false
     | some st => decide (st.resultRate < -alterEpsilon))

/-- The affected-store counter of `chooseEvictCandidate`. -/
def affectedStoreCount (cluster : Cluster) : Nat :=
  (cluster.stores.filter affectedPred).length

/-- Go conversion `int(x)` for a float modelled as a rational: truncation toward zero. -/
def truncQ (x : ℚ) : ℤ := Int.tdiv x.num (x.den : ℤ)

/-- Source threshold `int(float64(len(stores)) * GetSlowStoreEvictingAffectedStoreRatioThreshold())`:
computed over the full store list, removed stores included. -/
def affectedStoreThreshold (cluster : Cluster) : ℤ :=
  truncQ ((cluster.stores.length : ℚ) * cluster.evictingAffectedStoreRatioThreshold)

/-- Comparison-population test of `checkStoreSlowerThanOthers`: an eligible store other
than the target whose cause magnitude the target exceeds by more than epsilon, and whose
own cause magnitude is itself above epsilon. -/
def slowerPred (target : StoreInfo) (targetSlowTrend : SlowTrend) (s : StoreInfo) : Bool :=
  eligiblePred s &&
    (decide (s.id ≠ target.id) &&
      (match s.slowTrend with
       | none => false
       | some st =>
         decide (targetSlowTrend.causeValue - st.causeValue > alterEpsilon) &&
           decide (st.causeValue > alterEpsilon)))

/-- Source `checkStoreSlowerThanOthers`: fails with no data when the target has no trend
signal; else requires the slower-than count to reach `(len(stores)*2 + 1) / 3`. -/
def checkStoreSlowerThanOthers (cluster : Cluster) (target : StoreInfo) : Bool :=
  match target.slowTrend with
  | none => false
  | some targetSlowTrend =>
    decide ((cluster.stores.filter (slowerPred target targetSlowTrend)).length ≥
      (cluster.stores.length * 2 + 1) / 3)

/-- Comparison-population test of `checkStoreFasterThanOthers`: an eligible store other
than the target, with a signal, such that the target's cause magnitude is at most 110%
of the other's, both magnitudes being above epsilon. -/
def fasterPred (target : StoreInfo) (targetSlowTrend : SlowTrend) (s : StoreInfo) : Bool :=
  eligiblePred s &&
    (decide (s.id ≠ target.id) &&
      (match s.slowTrend with
       | none => false
       | some st =>
         decide (targetSlowTrend.causeValue ≤ st.causeValue * (11 / 10)) &&
           (decide (st.causeValue > alterEpsilon) &&
             decide (targetSlowTrend.causeValue > alterEpsilon))))

/-- Source `checkStoreFasterThanOthers`: fails with no data when the target has no trend
signal; else requires the faster-than count to reach `(len(stores) + 1) / 2`. -/
def checkStoreFasterThanOthers (cluster : Cluster) (target : StoreInfo) : Bool :=
  match target.slowTrend with
  | none => false
  | some targetSlowTrend =>
    decide ((cluster.stores.filter (fasterPred target targetSlowTrend)).length ≥
      (cluster.stores.length + 1) / 2)

/-- Per-store test of `checkStoresAreUpdated`: removed, non-preparing-non-serving and
target stores count as trivially updated; an eligible other store counts when its last
heartbeat is at or after the candidate's capture instant. -/
def updatedPred (slowStoreID : Nat) (slowStoreRecordTS : Nat) (s : StoreInfo) : Bool :=
  s.isRemoved || !(s.isPreparing || s.isServing) || decide (s.id = slowStoreID) ||
    decide (slowStoreRecordTS ≤ s.lastHeartbeatTS)

/-- Source `checkStoresAreUpdated`: returns false outright for clusters of at most one
store; else requires the updated count to reach `(len(stores) + 1) / 2`. -/
def checkStoresAreUpdated (cluster : Cluster) (slowStoreID : Nat)
    (slowStoreRecordTS : Nat) : Bool :=
  if cluster.stores.length ≤ 1 then false
  else
    decide ((cluster.stores.filter (updatedPred slowStoreID slowStoreRecordTS)).length ≥
      (cluster.stores.length + 1) / 2)

/-- Source `checkStoreReadyForRecover`: when the target has a trend signal, a pure time
gate on the recovery gap; when it has none, passes unconditionally. The cluster argument
is unused in the source as well. -/
def checkStoreReadyForRecover (_cluster : Cluster) (target : StoreInfo)
    (recoveryGap : Nat) : Bool :=
  match target.slowTrend with
  | some _ => decide (recoveryGap ≥ defaultRecoveryDurationGap)
  | none => true

/-- Source `checkStoreCanRecover`: the conjunction of the faster-than-others and
ready-for-recover gates (the signal-event gate of the source is commented out). -/
def checkStoreCanRecover (cluster : Cluster) (target : StoreInfo) (recoveryGap : Nat) : Bool :=
  checkStoreFasterThanOthers cluster target &&
    checkStoreReadyForRecover cluster target recoveryGap

/-- Tail of `chooseEvictCandidate` after the store-count guard: reject unless exactly one
candidate was collected; then apply the affected-threshold gate and the slower-than-others
confirmation. -/
def chooseFromCandidates (cluster : Cluster) (candidates : List StoreInfo) :
    Option StoreInfo :=
  match candidates with
  | [store] =>
    if (affectedStoreCount cluster : ℤ) < affectedStoreThreshold cluster then none
    else if checkStoreSlowerThanOthers cluster store = true then some store
    else none
  | _ => none

/-- Source `chooseEvictCandidate`: rejects clusters of fewer than 3 stores, then filters
candidates and applies the confirmation gates. -/
def chooseEvictCandidate (cluster : Cluster) (lastEvictCandidate : SlowCandidate)
    (now : Nat) : Option StoreInfo :=
  if cluster.stores.length < 3 then none
  else chooseFromCandidates cluster (collectCandidates cluster lastEvictCandidate now)

/-- Action emitted by a tick. Modelled from the spec: the construction of the actual
leader-transfer operator batch (`scheduleEvictLeaderBatch`, delegating to
`RequestLeaderEviction`) lives outside this source file; it is modelled as a single
abstract leader-eviction request for the named store. -/
inductive Op where
  | evictLeaderBatch (storeID : Nat)
deriving DecidableEq

/-- A Go nil-pointer dereference: a panic that aborts the owning process. -/
inductive GoPanic where
  | nilStoreDeref
deriving DecidableEq

/-- Source `scheduleEvictLeader`: no operators when the evicted store is absent from the
snapshot, else the leader-eviction batch for it. -/
def scheduleEvictLeader (conf : SchedulerConfig) (cluster : Cluster) : List Op :=
  match getStore cluster conf.evictedStore with
  | none => []
  | some _ => [Op.evictLeaderBatch conf.evictedStore]

/-- Branch of `Schedule` taken while a store is evicted. The removed-or-absent branch
logs with `store.GetID()` before falling through to cleanup: when `GetStore` returned
nil this dereferences a nil pointer. -/
def scheduleEvictedPhase (conf : SchedulerConfig) (cluster : Cluster) (now : Nat)
    (storageOk : Bool) : Except GoPanic (SchedulerConfig × List Op) :=
  match getStore cluster conf.evictedStore with
  | none => Except.error GoPanic.nilStoreDeref
  | some store =>
    if store.isRemoved = true then
      Except.ok ((clearAndPersist conf storageOk).1, [])
    else if checkStoreCanRecover cluster store (conf.candidateCapturedSecs now) = true then
      Except.ok ((clearAndPersist conf storageOk).1, [])
    else
      Except.ok (conf, scheduleEvictLeader conf cluster)

/-- Promotion tail of `Schedule`: wait while the heartbeat-freshness gate fails, else pop
the candidate, persist it as evicted (backing off on a persistence failure) and issue the
leader-eviction batch. -/
def promoteCandidate (conf : SchedulerConfig) (cluster : Cluster) (storageOk : Bool) :
    Except GoPanic (SchedulerConfig × List Op) :=
  if checkStoresAreUpdated cluster conf.candidate conf.captureTS = false then
    Except.ok (conf, [])
  else
    let pop := popCandidate conf
    let set := setStoreAndPersist pop.2 pop.1 storageOk
    match set.2 with
    | some _ => Except.ok (set.1, [])
    | none => Except.ok (set.1, scheduleEvictLeader set.1 cluster)

/-- Branch of `Schedule` taken while no store is evicted: capture a detector candidate
when none is set, cancel a stale candidate that is back at parity (the faster-than check
dereferences the candidate's store, which `GetStore` may have returned as nil), else run
the promotion tail. -/
def scheduleCandidatePhase (conf : SchedulerConfig) (cluster : Cluster) (now : Nat)
    (storageOk : Bool) : Except GoPanic (SchedulerConfig × List Op) :=
  let step :=
    if conf.candidate = 0 then
      match chooseEvictCandidate cluster conf.lastEvictCandidate now with
      | some cand => (captureCandidate conf cand.id now, true)
      | none => (conf, false)
    else (conf, false)
  let conf1 := step.1
  let candFreshCaptured := step.2
  if conf1.candidate = 0 then Except.ok (conf1, [])
  else
    match candFreshCaptured, getStore cluster conf1.candidate with
    | false, none => Except.error GoPanic.nilStoreDeref
    | false, some slowStore =>
      if checkStoreFasterThanOthers cluster slowStore = true then
        Except.ok ((popCandidate conf1).2, [])
      else promoteCandidate conf1 cluster storageOk
    | true, _ => promoteCandidate conf1 cluster storageOk

/-- Source `Schedule`: one tick of the decision loop, dispatching on whether a store is
currently evicted. -/
def Schedule (conf : SchedulerConfig) (cluster : Cluster) (now : Nat) (storageOk : Bool) :
    Except GoPanic (SchedulerConfig × List Op) :=
  if conf.evictedStore ≠ 0 then scheduleEvictedPhase conf cluster now storageOk
  else scheduleCandidatePhase conf cluster now storageOk

/-- Concrete trend at parity with peers: unit cause magnitude, flat rates. -/
def trendParity : SlowTrend := ⟨1, 0, 0, 0⟩

/-- Concrete disk-io-jitter signature: elevated cause magnitude, rising cause rate,
falling result rate. -/
def trendJitter : SlowTrend := ⟨10, 1, 0, -1⟩

/-- Concrete elevated cause magnitude with flat rates. -/
def trendSlowFlat : SlowTrend := ⟨10, 0, 0, 0⟩

/-- Concrete trend with all components zero. -/
def trendZero : SlowTrend := ⟨0, 0, 0, 0⟩

/-- Concrete trend whose result rate is degrading but whose cause rate is flat. -/
def trendAffected : SlowTrend := ⟨1, 0, 0, -1⟩

/-- Trend signal with every component positive. -/
def trendAllOnes : SlowTrend := ⟨1, 1, 1, 1⟩

/-- Three-store cluster while store 2 is slow: stores 1 and 3 at parity, store 2
showing the jitter signature; all heartbeats at instant 1000. -/
def c1ClusterA : Cluster :=
  ⟨[⟨1, .serving, some trendParity, 1000⟩, ⟨2, .serving, some trendJitter, 1000⟩,
    ⟨3, .serving, some trendParity, 1000⟩], false, 1/2⟩

/-- The same cluster after store 2 returned to parity with its peers. -/
def c1ClusterB : Cluster :=
  ⟨[⟨1, .serving, some trendParity, 1000⟩, ⟨2, .serving, some trendParity, 1000⟩,
    ⟨3, .serving, some trendParity, 1000⟩], false, 1/2⟩

/-- Probationary state: store 2 is the current candidate, captured at instant 900. -/
def c1ConfStart : SchedulerConfig := ⟨⟨2, 900⟩, ⟨2, 900⟩, []⟩

/-- State right after the promotion tick: candidate slot cleared, store 2 evicted. -/
def c1ConfEvicting : SchedulerConfig := ⟨emptyCandidate, ⟨2, 900⟩, [2]⟩

/-- State after the recovery tick: evicted-store list cleared again. -/
def c1ConfRecovered : SchedulerConfig := ⟨emptyCandidate, ⟨2, 900⟩, []⟩

/-- An empty cluster snapshot (the recovery time gate ignores its cluster argument). -/
def c2Cluster : Cluster := ⟨[], false, 1/2⟩

/-- A target store carrying no trend signal. -/
def c2NoSignalTarget : StoreInfo := ⟨9, .serving, none, 0⟩

/-- A target store carrying a trend signal. -/
def c2SignalTarget : StoreInfo := ⟨9, .serving, some trendAllOnes, 0⟩

/-- Target store with an elevated cause magnitude and flat rates. -/
def c3Target : StoreInfo := ⟨1, .serving, some trendSlowFlat, 0⟩

/-- Four-store cluster: the target, two parity stores that count as slower-than, and one
store with a zero cause magnitude that does not count. -/
def c3Cluster : Cluster :=
  ⟨[c3Target, ⟨2, .serving, some trendParity, 0⟩, ⟨3, .serving, some trendParity, 0⟩,
    ⟨4, .serving, some trendZero, 0⟩], false, 1/2⟩

/-- Three-store cluster with only two eligible stores: store 1 is removed, store 2 shows
the jitter signature, store 3 is at parity. -/
def c4Cluster : Cluster :=
  ⟨[⟨1, .removed, none, 0⟩, ⟨2, .serving, some trendJitter, 0⟩,
    ⟨3, .serving, some trendParity, 0⟩], false, 0⟩

/-- Persisted state naming evicted store 7. -/
def c5Conf : SchedulerConfig := ⟨emptyCandidate, emptyCandidate, [7]⟩

/-- Cluster snapshot that no longer contains store 7 at all. -/
def c5Cluster : Cluster := ⟨[⟨1, .serving, none, 0⟩], false, 1/2⟩

/-- The sole collected candidate of the eight-store cluster below. -/
def c6Target : StoreInfo := ⟨2, .serving, some trendJitter, 0⟩

/-- Eight-store cluster: one removed store, the jitter-signature target, two further
affected stores (degrading result rate, flat cause rate) and four parity stores;
affected-ratio tunable one half. -/
def c6Cluster : Cluster :=
  ⟨[⟨1, .removed, none, 0⟩, c6Target,
    ⟨3, .serving, some trendAffected, 0⟩, ⟨4, .serving, some trendAffected, 0⟩,
    ⟨5, .serving, some trendParity, 0⟩, ⟨6, .serving, some trendParity, 0⟩,
    ⟨7, .serving, some trendParity, 0⟩, ⟨8, .serving, some trendParity, 0⟩], false, 1/2⟩

/-- A single-store cluster whose sole store is the heartbeat-check target itself. -/
def c7Cluster1 : Cluster := ⟨[⟨1, .serving, none, 0⟩], false, 1/2⟩

/-- A two-store cluster with heartbeats at instant 50. -/
def c7Cluster2 : Cluster := ⟨[⟨1, .serving, none, 50⟩, ⟨2, .serving, none, 50⟩], false, 1/2⟩

/-- Store 3 still present in the snapshot but with the removed lifecycle status. -/
def c8Store : StoreInfo := ⟨3, .removed, none, 0⟩

/-- Two-store cluster containing the removed store 3. -/
def c8Cluster : Cluster := ⟨[⟨1, .serving, none, 0⟩, c8Store], false, 1/2⟩

/-- Persisted state naming evicted store 3. -/
def c8Conf : SchedulerConfig := ⟨emptyCandidate, emptyCandidate, [3]⟩

/-- Candidate-tracking state whose current candidate slot is the empty value. -/
def c10EmptyConf : SchedulerConfig := ⟨emptyCandidate, emptyCandidate, []⟩

/-- Candidate-tracking state holding an actual current candidate (store 5, instant 10). -/
def c10GoodConf : SchedulerConfig := ⟨⟨5, 10⟩, emptyCandidate, []⟩

/-- Counting helper: a pointwise-weaker filter keeps at most as many elements. -/
theorem length_filter_le_of_imp {α : Type} (p q : α → Bool) (l : List α)
    (h : ∀ x, p x = true → q x = true) :
    (l.filter p).length ≤ (l.filter q).length := by
  induction l with
  | nil => simp
  | cons a tl ih =>
    rw [List.filter_cons, List.filter_cons]
    by_cases hp : p a = true
    · rw [if_pos hp, if_pos (h a hp)]
      simpa using ih
    · rw [if_neg hp]
      by_cases hq : q a = true
      · rw [if_pos hq]
        exact Nat.le_succ_of_le ih
      · rw [if_neg hq]
        exact ih

/-- Counting helper: the inequality is strict when some member passes the weaker filter
but not the stronger one. -/
theorem length_filter_lt_of_mem {α : Type} (p q : α → Bool) (l : List α) (a : α)
    (ha : a ∈ l) (hqa : q a = true) (hpa : p a = false)
    (h : ∀ x, p x = true → q x = true) :
    (l.filter p).length < (l.filter q).length := by
  induction l with
  | nil => cases ha
  | cons b tl ih =>
    rw [List.filter_cons, List.filter_cons]
    rcases List.mem_cons.mp ha with rfl | hmem
    · rw [if_neg (by simp [hpa]), if_pos hqa]
      exact Nat.lt_succ_of_le (length_filter_le_of_imp p q tl h)
    · by_cases hp : p b = true
      · rw [if_pos hp, if_pos (h b hp)]
        simpa using ih hmem
      · rw [if_neg hp]
        by_cases hq : q b = true
        · rw [if_pos hq]
          exact Nat.lt_succ_of_lt (ih hmem)
        · rw [if_neg hq]
          exact ih hmem

/-- With fewer than 3 eligible stores, the slower-than-others confirmation can never
reach its threshold for a member eligible target: the comparison population has at most
one store while the threshold is at least 2 whenever the cluster has at least 3 stores. -/
theorem checkStoreSlowerThanOthers_eq_false_of_few_eligible
    (cluster : Cluster) (store : StoreInfo)
    (hmem : store ∈ cluster.stores) (helig : eligiblePred store = true)
    (hfew : (cluster.stores.filter eligiblePred).length < 3)
    (hn : 3 ≤ cluster.stores.length) :
    checkStoreSlowerThanOthers cluster store = false := by
  unfold checkStoreSlowerThanOthers
  cases hst : store.slowTrend with
  | none => rfl
  | some tst =>
    have hsub : ∀ x, slowerPred store tst x = true → eligiblePred x = true := by
      intro x hx
      unfold slowerPred at hx
      rw [Bool.and_eq_true] at hx
      exact hx.1
    have hself : slowerPred store tst store = false := by
      unfold slowerPred
      simp
    have hlt := length_filter_lt_of_mem (slowerPred store tst) eligiblePred
      cluster.stores store hmem helig hself hsub
    show decide ((cluster.stores.filter (slowerPred store tst)).length ≥
      (cluster.stores.length * 2 + 1) / 3) = false
    simp only [decide_eq_false_iff_not]
    omega

/-- Claim C1: The spec requires the loop to stay in the Evicting state and re-issue the
eviction while fewer than 600 seconds have passed since the eviction started, even when
FasterThanOthers already passes. On the code, promotion clears the candidate slot whose
timestamp feeds the recovery gap, so the gap measured on the next tick is the time since
the zero instant, not since the eviction: here eviction starts at instant 1000 and the
tick at instant 1500 (500 seconds later) already recovers. -/
theorem c1_recovery_time_gate_vacuous :
    Schedule c1ConfStart c1ClusterA 1000 true =
        Except.ok (c1ConfEvicting, [Op.evictLeaderBatch 2]) ∧
      c1ConfEvicting.evictedStores = [2] ∧
      c1ConfEvicting.candidateCapturedSecs 1500 = 1500 ∧
      checkStoreFasterThanOthers c1ClusterB ⟨2, .serving, some trendParity, 1000⟩ = true ∧
      Schedule c1ConfEvicting c1ClusterB 1500 true = Except.ok (c1ConfRecovered, []) ∧
      c1ConfRecovered.evictedStores = [] := by
  refine ⟨?_, rfl, rfl, ?_, ?_, rfl⟩
  · with_unfolding_all rfl
  · with_unfolding_all rfl
  · with_unfolding_all rfl

/-- Claim C2 counterexample: The claim states the recovery time gate passes iff the gap
reaches 600 seconds regardless of the trend signal; on the code a target without a
trend signal passes with a gap of 0. -/
theorem c2_counterexample :
    checkStoreReadyForRecover c2Cluster c2NoSignalTarget 0 = true ∧
      ¬ (0 ≥ defaultRecoveryDurationGap) := by
  exact ⟨rfl, by decide⟩

/-- Claim C2 as amended: For a target that does carry a trend signal, the recovery time gate
passes iff the recovery gap reaches 600 seconds, independently of the signal's contents
and of the cluster. -/
theorem c2_ready_for_recover_iff (cluster : Cluster) (target : StoreInfo)
    (recoveryGap : Nat) (tst : SlowTrend) (h : target.slowTrend = some tst) :
    (checkStoreReadyForRecover cluster target recoveryGap = true ↔
      recoveryGap ≥ defaultRecoveryDurationGap) := by
  unfold checkStoreReadyForRecover
  rw [h]
  exact ⟨of_decide_eq_true, fun hp => decide_eq_true hp⟩

/-- Claim C2 witness: a target with a signal and a gap of 700 seconds. -/
theorem c2_ready_for_recover_iff_witness :
    (checkStoreReadyForRecover c2Cluster c2SignalTarget 700 = true ↔
      700 ≥ defaultRecoveryDurationGap) :=
  c2_ready_for_recover_iff c2Cluster c2SignalTarget 700 trendAllOnes rfl

/-- Claim C3 counterexample: The claim puts the slower-than-others threshold at
floor(total * 2 / 3); in a 4-store cluster that is 2, yet the code demands
(4 * 2 + 1) / 3 = 3 and fails with a count of 2. -/
theorem c3_counterexample :
    checkStoreSlowerThanOthers c3Cluster c3Target = false ∧
      (c3Cluster.stores.filter (slowerPred c3Target trendSlowFlat)).length = 2 ∧
      c3Cluster.stores.length * 2 / 3 ≤ 2 := by
  refine ⟨?_, ?_, by decide⟩
  · with_unfolding_all rfl
  · with_unfolding_all rfl

/-- Claim C3 as amended: For a target with a trend signal, the slower-than-others check passes
iff the count of other eligible stores it beats by more than epsilon (their own cause
magnitude above epsilon) reaches (total * 2 + 1) / 3, total being the full store count. -/
theorem c3_slower_than_others_iff (cluster : Cluster) (target : StoreInfo)
    (tst : SlowTrend) (h : target.slowTrend = some tst) :
    (checkStoreSlowerThanOthers cluster target = true ↔
      (cluster.stores.filter (slowerPred target tst)).length ≥
        (cluster.stores.length * 2 + 1) / 3) := by
  unfold checkStoreSlowerThanOthers
  rw [h]
  exact ⟨of_decide_eq_true, fun hp => decide_eq_true hp⟩

/-- Claim C3 witness: the 4-store cluster above instantiates the amended equivalence. -/
theorem c3_slower_than_others_iff_witness :
    (checkStoreSlowerThanOthers c3Cluster c3Target = true ↔
      (c3Cluster.stores.filter (slowerPred c3Target trendSlowFlat)).length ≥
        (c3Cluster.stores.length * 2 + 1) / 3) :=
  c3_slower_than_others_iff c3Cluster c3Target trendSlowFlat rfl

/-- Claim C4: With fewer than 3 eligible (non-removed, preparing-or-serving) stores the
candidate detector returns empty regardless of trend signals and of the last-candidate
memory: small clusters are rejected by the store-count guard outright, and in larger
clusters with too few eligible stores the slower-than-others confirmation cannot reach
its threshold. -/
theorem c4_few_eligible_returns_none (cluster : Cluster)
    (lastEvictCandidate : SlowCandidate) (now : Nat)
    (h : (cluster.stores.filter eligiblePred).length < 3) :
    chooseEvictCandidate cluster lastEvictCandidate now = none := by
  unfold chooseEvictCandidate
  by_cases hlen : cluster.stores.length < 3
  · rw [if_pos hlen]
  · rw [if_neg hlen]
    unfold chooseFromCandidates
    rcases hc : collectCandidates cluster lastEvictCandidate now with _ | ⟨store, rest⟩
    · rfl
    · rcases rest with _ | ⟨b, tl⟩
      · have hmem : store ∈ cluster.stores ∧
            candidatePred cluster lastEvictCandidate now store = true := by
          have hin : store ∈ collectCandidates cluster lastEvictCandidate now := by
            rw [hc]
            exact List.mem_cons_self _ _
          exact List.mem_filter.mp hin
        have helig : eligiblePred store = true := by
          have h2 := hmem.2
          unfold candidatePred at h2
          rw [Bool.and_eq_true] at h2
          exact h2.1
        have hslow := checkStoreSlowerThanOthers_eq_false_of_few_eligible cluster store
          hmem.1 helig h (Nat.le_of_not_lt hlen)
        show (if (affectedStoreCount cluster : ℤ) < affectedStoreThreshold cluster then none
          else if checkStoreSlowerThanOthers cluster store = true then some store
          else none) = none
        rw [hslow]
        split
        · rfl
        · simp
      · rfl

/-- Claim C4 witness: a 3-store cluster with one removed store (2 eligible) containing a
jitter-signature store is still rejected. -/
theorem c4_few_eligible_returns_none_witness :
    (c4Cluster.stores.filter eligiblePred).length < 3 ∧
      chooseEvictCandidate c4Cluster emptyCandidate 0 = none :=
  ⟨by decide, c4_few_eligible_returns_none c4Cluster emptyCandidate 0 (by decide)⟩

/-- Claim C5: The spec says no failure mode of a tick is fatal, and in particular the branch
handling a vanished or removed evicted store degrades to no action. On the code, when
the snapshot no longer contains the evicted store at all, the branch's log statement
dereferences the nil store and panics the process. -/
theorem c5_nil_store_panics :
    Schedule c5Conf c5Cluster 0 true = Except.error GoPanic.nilStoreDeref := rfl

/-- Claim C6 counterexample: The claim computes the affected-store threshold over the eligible
node count; here 7 stores are eligible, the claim threshold floor(7 * 1/2) = 3 is met by
the affected count 3, the slower-than-others confirmation passes, exactly one candidate
was collected, yet the detector rejects because the code's threshold is computed over
all 8 stores: int(8 * 1/2) = 4. -/
theorem c6_counterexample :
    collectCandidates c6Cluster emptyCandidate 0 = [c6Target] ∧
      affectedStoreCount c6Cluster = 3 ∧
      (c6Cluster.stores.filter eligiblePred).length = 7 ∧
      affectedStoreThreshold c6Cluster = 4 ∧
      (⌊((c6Cluster.stores.filter eligiblePred).length : ℚ) *
          c6Cluster.evictingAffectedStoreRatioThreshold⌋ : ℤ) = 3 ∧
      checkStoreSlowerThanOthers c6Cluster c6Target = true ∧
      chooseEvictCandidate c6Cluster emptyCandidate 0 = none := by
  refine ⟨?_, ?_, by decide, ?_, ?_, ?_, ?_⟩
  · with_unfolding_all rfl
  · with_unfolding_all rfl
  · with_unfolding_all rfl
  · with_unfolding_all rfl
  · with_unfolding_all rfl
  · with_unfolding_all rfl

/-- Claim C6 as amended: When the cluster passes the store-count guard and exactly one
candidate was collected, the detector returns empty iff the affected counter falls below
the threshold computed over the full store list (removed stores included) or the
slower-than-others confirmation fails. -/
theorem c6_affected_threshold_iff (cluster : Cluster)
    (lastEvictCandidate : SlowCandidate) (now : Nat) (store : StoreInfo)
    (hlen : ¬ cluster.stores.length < 3)
    (hc : collectCandidates cluster lastEvictCandidate now = [store]) :
    (chooseEvictCandidate cluster lastEvictCandidate now = none ↔
      ((affectedStoreCount cluster : ℤ) < affectedStoreThreshold cluster ∨
        checkStoreSlowerThanOthers cluster store = false)) := by
  unfold chooseEvictCandidate
  rw [if_neg hlen]
  unfold chooseFromCandidates
  rw [hc]
  show ((if (affectedStoreCount cluster : ℤ) < affectedStoreThreshold cluster then none
    else if checkStoreSlowerThanOthers cluster store = true then some store
    else none) = none ↔ _)
  by_cases ht : (affectedStoreCount cluster : ℤ) < affectedStoreThreshold cluster
  · rw [if_pos ht]
    simp [ht]
  · rw [if_neg ht]
    by_cases hs : checkStoreSlowerThanOthers cluster store = true
    · rw [if_pos hs]
      simp [ht, hs]
    · rw [if_neg hs]
      have hs2 : checkStoreSlowerThanOthers cluster store = false := by
        revert hs
        cases checkStoreSlowerThanOthers cluster store <;> simp
      simp [ht, hs2]

/-- Claim C6 witness: the eight-store cluster instantiates the amended equivalence. -/
theorem c6_affected_threshold_iff_witness :
    (chooseEvictCandidate c6Cluster emptyCandidate 0 = none ↔
      ((affectedStoreCount c6Cluster : ℤ) < affectedStoreThreshold c6Cluster ∨
        checkStoreSlowerThanOthers c6Cluster c6Target = false)) :=
  c6_affected_threshold_iff c6Cluster emptyCandidate 0 c6Target (by decide)
    (by with_unfolding_all rfl)

/-- Claim C7 counterexample: The claim says the freshness check passes iff the updated count
reaches ceil(total/2); in a single-store cluster the target itself yields a count of
1 ≥ ceil(1/2), yet the code returns false outright for clusters of at most one store. -/
theorem c7_counterexample :
    checkStoresAreUpdated c7Cluster1 1 0 = false ∧
      (c7Cluster1.stores.filter (updatedPred 1 0)).length = 1 ∧
      (c7Cluster1.stores.length + 1) / 2 ≤ 1 := by
  exact ⟨rfl, by decide, by decide⟩

/-- Claim C7 as amended: For clusters of at least 2 stores, the heartbeat-freshness check
passes iff the count of stores that are removed, non-preparing-non-serving, the target
itself, or eligible with a heartbeat at or after the capture instant reaches
(total + 1) / 2. -/
theorem c7_stores_updated_iff (cluster : Cluster) (slowStoreID ts : Nat)
    (h : 2 ≤ cluster.stores.length) :
    (checkStoresAreUpdated cluster slowStoreID ts = true ↔
      (cluster.stores.filter (updatedPred slowStoreID ts)).length ≥
        (cluster.stores.length + 1) / 2) := by
  unfold checkStoresAreUpdated
  rw [if_neg (by omega)]
  exact ⟨of_decide_eq_true, fun hp => decide_eq_true hp⟩

/-- Claim C7 witness: a two-store cluster instantiates the amended equivalence. -/
theorem c7_stores_updated_iff_witness :
    (checkStoresAreUpdated c7Cluster2 1 40 = true ↔
      (c7Cluster2.stores.filter (updatedPred 1 40)).length ≥
        (c7Cluster2.stores.length + 1) / 2) :=
  c7_stores_updated_iff c7Cluster2 1 40 (by decide)

/-- Claim C8: While a store is evicted and the snapshot still carries it with the removed
lifecycle status, the very next tick clears the evicted-store list (attempting the
persistence write, whatever its outcome) and returns no leader-eviction request. -/
theorem c8_removed_store_transitions_idle (conf : SchedulerConfig) (cluster : Cluster)
    (now : Nat) (storageOk : Bool) (store : StoreInfo)
    (hev : conf.evictedStore ≠ 0)
    (hget : getStore cluster conf.evictedStore = some store)
    (hrem : store.isRemoved = true) :
    Schedule conf cluster now storageOk =
      Except.ok ({ conf with evictedStores := [] }, []) := by
  unfold Schedule
  rw [if_pos hev]
  unfold scheduleEvictedPhase
  rw [hget]
  show (if store.isRemoved = true then
      Except.ok ((clearAndPersist conf storageOk).1, ([] : List Op))
    else if checkStoreCanRecover cluster store (conf.candidateCapturedSecs now) = true then
      Except.ok ((clearAndPersist conf storageOk).1, [])
    else Except.ok (conf, scheduleEvictLeader conf cluster)) = _
  rw [if_pos hrem]
  unfold clearAndPersist
  rw [if_neg hev]

/-- Claim C8 witness: evicted store 3 is present but removed; the tick idles, with the
persistence write failing. -/
theorem c8_removed_store_transitions_idle_witness :
    Schedule c8Conf c8Cluster 5 false =
      Except.ok ({ c8Conf with evictedStores := [] }, []) :=
  c8_removed_store_transitions_idle c8Conf c8Cluster 5 false c8Store (by decide)
    (by decide) (by decide)

/-- Claim C9: Setting a store as evicted mutates the in-memory list to that single store
before the persistence write is attempted, so on a failed write the call reports a
persistence error while the in-memory state is already mutated. -/
theorem c9_set_and_persist (conf : SchedulerConfig) (id : Nat) (storageOk : Bool) :
    (setStoreAndPersist conf id storageOk).1.evictedStores = [id] ∧
      (setStoreAndPersist conf id storageOk).2 =
        (if storageOk then none else some PersistError.persistenceError) :=
  ⟨rfl, rfl⟩

/-- Claim C10 counterexample: When the popped current candidate is the empty value, the
following capture of the returned id re-seeds the last-candidate slot with a fresh
capture instant, so the slot does not equal the popped value. -/
theorem c10_counterexample :
    (captureCandidate (popCandidate c10EmptyConf).2 (popCandidate c10EmptyConf).1
        1).lastEvictCandidate ≠ c10EmptyConf.evictCandidate := by
  decide

/-- Claim C10 as amended: For every state whose current candidate is not the empty value,
popping and then immediately capturing the returned id leaves the last-candidate slot
equal to the popped value. -/
theorem c10_pop_then_capture_refreshes (conf : SchedulerConfig) (now : Nat)
    (h : conf.evictCandidate ≠ emptyCandidate) :
    (captureCandidate (popCandidate conf).2 (popCandidate conf).1
        now).lastEvictCandidate = conf.evictCandidate := by
  unfold captureCandidate popCandidate
  simp only []
  rw [if_neg h]

/-- Claim C10 witness: a state holding candidate store 5 captured at instant 10. -/
theorem c10_pop_then_capture_refreshes_witness :
    (captureCandidate (popCandidate c10GoodConf).2 (popCandidate c10GoodConf).1
        99).lastEvictCandidate = c10GoodConf.evictCandidate :=
  c10_pop_then_capture_refreshes c10GoodConf 99 (by decide)

end EvictSlowTrend
